import Mathlib

/-!
Verification of the Canary network connection core (`connection.cpp`, `server.cpp`).

The C++ code is embedded shallowly: a `Conn` record carries the fields of
`Connection` that the verified properties observe, and each member function
becomes a pure Lean function from the pre-state (plus the values the function
reads from its collaborators: the clock, the config, the service list, the
error code of the completed async operation) to the post-state together with
a list of `Event`s recording the externally observable actions the function
performs (invoking `close`, closing the socket, scheduling `protocol->release`,
posting work, issuing an async read, delivering a message to the protocol,
logging).  Machine integers are modelled as `Nat`, with conversions made
explicit where the C++ performs one (the `uint32_t` conversion inside the
rate-limit computation).
-/

namespace Canary

/-- Compile-time constant `HEADER_LENGTH` (2-byte little-endian length field). -/
def HEADER_LENGTH : Nat := 2

/-- Compile-time constant `CHECKSUM_LENGTH` (4-byte Adler-32 field). -/
def CHECKSUM_LENGTH : Nat := 4

/-- Source constant `FORCE_CLOSE` passed to `Connection::close`. -/
def FORCE_CLOSE : Bool := true

/-- The `ConnectionState_t` enumeration of `connection.hpp`. -/
inductive ConnState where
  | OPEN
  | IDENTIFYING
  | READINGS
  | CLOSED
deriving DecidableEq, Repr

/-- Which completion handler an issued async read names. -/
inductive Completion where
  | proxyIdent
  | header
  | packet
deriving DecidableEq, Repr

/-- A `Service` configuration record of a `ServicePort`: protocol identifier
byte, the `is_checksummed` flag and the `is_single_socket` flag.  The protocol
factory is represented by the record itself (the produced protocol is
identified with the service that made it). -/
structure Service where
  protocolID : Nat
  isChecksummed : Bool
  isSingleSocket : Bool
deriving DecidableEq, Repr

/-- Observable actions performed by the connection member functions. -/
inductive Event where
  | closeInvoked (force : Bool)
  | scheduledRelease
  | closedSocket
  | postedInternalWorker
  | onSendMessage
  | issuedWrite
  | issuedRead (n : Nat) (k : Completion)
  | deliveredOnRecvFirst
  | deliveredOnRecv
  | askedProtocol (checksummed : Bool)
  | logWarn
  | logError
deriving DecidableEq, Repr

/-- Is the event a delivery to `protocol->onRecvFirstMessage` or
`protocol->onRecvMessage`? -/
def isRecvEvent : Event → Bool
  | Event.deliveredOnRecvFirst => true
  | Event.deliveredOnRecv => true
  | _ => false

/-- The fields of `Connection` observed by the verified properties.  The
inbound `NetworkMessage` is inlined as a byte list plus its length and read
cursor; the outbound queue holds abstract message identifiers. -/
structure Conn where
  connectionState : ConnState
  ip : Nat
  packetsSent : Nat
  timeConnected : Nat
  receivedFirst : Bool
  protocol : Option Service
  messageQueue : List Nat
  socketOpen : Bool
  msgBuffer : List Nat
  msgLength : Nat
  msgPosition : Nat
deriving DecidableEq, Repr

/-- Modelled from the spec: `NetworkMessage` is "a byte buffer with a length
field, read cursor"; the class body lives outside the given sources.  Reading
byte `i` of the buffer, with 0 for out-of-range. -/
def readByte (buf : List Nat) (i : Nat) : Nat := buf.getD i 0

/-- Modelled from the spec: a 32-bit little-endian read at the cursor, as
performed by `msg.get<uint32_t>()`. -/
def readU32LE (buf : List Nat) (pos : Nat) : Nat :=
  readByte buf pos + 256 * readByte buf (pos + 1) +
    65536 * readByte buf (pos + 2) + 16777216 * readByte buf (pos + 3)

/-- Modelled from the spec: `msg.getLengthHeader()` peeks "the 2-byte
little-endian length header" at the start of the buffer. -/
def getLengthHeader (buf : List Nat) : Nat :=
  readByte buf 0 + 256 * readByte buf 1

/-- Modelled from the spec: `adlerChecksum` (implemented outside the given
sources) is "Adler-32 ... Fletcher-style running sum over payload bytes":
the standard mod-65521 pair of running sums. -/
def adler32Step (p : Nat × Nat) (byte : Nat) : Nat × Nat :=
  ((p.1 + byte) % 65521, (p.2 + (p.1 + byte) % 65521) % 65521)

/-- Modelled from the spec: Adler-32 of a byte sequence, low half the running
byte sum starting at 1, high half the running sum of the low halves. -/
def adler32 (bytes : List Nat) : Nat :=
  let p := bytes.foldl adler32Step (1, 0)
  p.2 * 65536 + p.1

/-- ASCII lower-casing of one byte, as `tolower` on the ASCII range. -/
def tolower (c : Nat) : Nat := if 65 ≤ c ∧ c ≤ 90 then c + 32 else c

/-- The libc `strncasecmp(a, b, n) == 0` test: compare at most `n` bytes
case-insensitively, stopping early at a NUL that both strings share.  List
ends are read as NUL bytes. -/
def strncaseeq : Nat → List Nat → List Nat → Bool
  | 0, _, _ => true
  | n + 1, a, b =>
    if tolower (a.headD 0) = tolower (b.headD 0) then
      if a.headD 0 = 0 then true else strncaseeq n a.tail b.tail
    else false

/-- `Connection::closeSocket`: cancels the timers and shuts the socket down;
after the call the socket is closed. -/
def closeSocket (c : Conn) : Conn × List Event :=
  ({ c with socketOpen := false }, [Event.closedSocket])

/-- `Connection::close(force)`: unregister, store 0 into `ip`, return if the
state already is `CLOSED`; otherwise enter `CLOSED`, schedule
`protocol->release()` when a protocol is bound, and close the socket when the
outbound queue is empty or `force` holds. -/
def close (c : Conn) (force : Bool) : Conn × List Event :=
  let c1 := { c with ip := 0 }
  if c1.connectionState = ConnState.CLOSED then
    (c1, [Event.closeInvoked force])
  else
    let c2 := { c1 with connectionState := ConnState.CLOSED }
    let releaseEvs := if c2.protocol.isSome then [Event.scheduledRelease] else []
    if c2.messageQueue.isEmpty || force then
      ({ c2 with socketOpen := false },
        Event.closeInvoked force :: releaseEvs ++ [Event.closedSocket])
    else
      (c2, Event.closeInvoked force :: releaseEvs)

/-- `Connection::send(outputMessage)`: early return in `CLOSED`; append to the
queue; when no write was pending, either post `internalWorker` (socket open)
or clear the queue and force-close (socket closed). -/
def send (c : Conn) (m : Nat) : Conn × List Event :=
  if c.connectionState = ConnState.CLOSED then
    (c, [])
  else
    let noPendingWrite := c.messageQueue.isEmpty
    let c1 := { c with messageQueue := c.messageQueue ++ [m] }
    if noPendingWrite then
      if c1.socketOpen then
        (c1, [Event.postedInternalWorker])
      else
        let r := close { c1 with messageQueue := [] } true
        (r.1, Event.logError :: r.2)
    else
      (c1, [])

/-- The `timePassed` computation of `Connection::parseHeader`:
`std::max<uint32_t>(1, (time(nullptr) - timeConnected) + 1)`, the signed
difference converted to `uint32_t` (reduction mod 2^32) before the max. -/
def timePassedOf (timeConnected now : Nat) : Nat :=
  max 1 ((((now : Int) - (timeConnected : Int) + 1) % (2 ^ 32 : Int)).toNat)

/-- `Connection::parseHeader(error)`: on error force-close; in `CLOSED` do
nothing; rate-limit on `packetsSent / timePassed`; reset the window after two
seconds; reject a zero or oversize length field with a force-close; otherwise
set the message length and read the body, completing in `parsePacket`.
The clock value, `MAX_PACKETS_PER_SECOND` and `INPUTMESSAGE_MAXSIZE` are
passed as parameters. -/
def parseHeader (c : Conn) (error : Bool) (now maxPPS maxSize : Nat) :
    Conn × List Event :=
  if error = true then
    close c true
  else if c.connectionState = ConnState.CLOSED then
    (c, [])
  else
    let timePassed := timePassedOf c.timeConnected now
    let c1 := { c with packetsSent := c.packetsSent + 1 }
    if c1.packetsSent / timePassed > maxPPS then
      let r := close c1 false
      (r.1, Event.logWarn :: r.2)
    else
      let c2 := if timePassed > 2 then
        { c1 with timeConnected := now, packetsSent := 0 } else c1
      let size := getLengthHeader c2.msgBuffer
      if size = 0 ∨ size > maxSize then
        close c2 true
      else
        ({ c2 with msgLength := size + HEADER_LENGTH },
          [Event.issuedRead size Completion.packet])

/-- `Connection::parseProxyIdentification(error)`: on error or in `CLOSED`
force-close.  In `IDENTIFYING`, a zero second byte or a case-insensitive
mismatch with the first two bytes of `serverName + "\n"` falls back to
`parseHeader` in state `OPEN`; a match either reads the remaining
`serverName` bytes in state `READINGS` or, when nothing remains, goes to
`OPEN`.  In `READINGS`, a suffix mismatch force-closes; a match goes to
`OPEN`.  Paths reaching the bottom issue a fresh 2-byte header read. -/
def parseProxyIdentification (c : Conn) (error : Bool) (serverNameCfg : List Nat)
    (now maxPPS maxSize : Nat) : Conn × List Event :=
  if error = true ∨ c.connectionState = ConnState.CLOSED then
    close c true
  else
    let serverName := serverNameCfg ++ [10]
    if c.connectionState = ConnState.IDENTIFYING then
      if readByte c.msgBuffer 1 = 0 ∨ strncaseeq 2 c.msgBuffer serverName = false then
        parseHeader { c with connectionState := ConnState.OPEN } error now maxPPS maxSize
      else
        let remainder := serverName.length - 2
        if remainder > 0 then
          ({ c with connectionState := ConnState.READINGS },
            [Event.issuedRead remainder Completion.proxyIdent])
        else
          ({ c with connectionState := ConnState.OPEN },
            [Event.issuedRead HEADER_LENGTH Completion.header])
    else if c.connectionState = ConnState.READINGS then
      let remainder := serverName.length - 2
      if strncaseeq remainder c.msgBuffer (serverName.drop 2) = true then
        ({ c with connectionState := ConnState.OPEN },
          [Event.issuedRead HEADER_LENGTH Completion.header])
      else
        let r := close c true
        (r.1, Event.logError :: r.2)
    else
      (c, [Event.issuedRead HEADER_LENGTH Completion.header])

/-- The service-selection loop of `ServicePort::make_protocol`: skip services
whose protocol identifier differs from the read byte; return the first
remaining one whose `is_checksummed()` is false or matched by the
`checksummed` argument. -/
def findService : List Service → Bool → Nat → Option Service
  | [], _, _ => none
  | s :: rest, checksummed, protocolID =>
    if protocolID ≠ s.protocolID then
      findService rest checksummed protocolID
    else if (checksummed && s.isChecksummed) || !s.isChecksummed then
      some s
    else
      findService rest checksummed protocolID

/-- `ServicePort::make_protocol(checksummed, msg, connection)`: read one byte
from the message as the protocol identifier (advancing the cursor) and run the
selection loop. -/
def make_protocol (services : List Service) (checksummed : Bool)
    (buf : List Nat) (pos : Nat) : Option Service × Nat :=
  (findService services checksummed (readByte buf pos), pos + 1)

/-- The checksum `parsePacket` computes for an unbound first packet: Adler-32
over the `len = length - cursor - CHECKSUM_LENGTH` bytes that follow the
4-byte checksum field when `len > 0`, else 0 (the source expression, named
so that statements can refer to it). -/
def packetChecksum (c : Conn) : Nat :=
  if 0 < (c.msgLength : Int) - (c.msgPosition : Int) - (CHECKSUM_LENGTH : Int) then
    adler32 ((c.msgBuffer.drop (c.msgPosition + CHECKSUM_LENGTH)).take
      ((c.msgLength : Int) - (c.msgPosition : Int) - (CHECKSUM_LENGTH : Int)).toNat)
  else 0

/-- The cursor after `parsePacket` reads the 32-bit received checksum and
rewinds by `CHECKSUM_LENGTH` exactly when it differs from the computed one. -/
def packetPos2 (c : Conn) : Nat :=
  if readU32LE c.msgBuffer c.msgPosition = packetChecksum c then
    c.msgPosition + CHECKSUM_LENGTH
  else
    c.msgPosition

/-- `Connection::parsePacket(error)`: on error or in `CLOSED` force-close.
On the first message with no protocol bound, compute the Adler-32 of the
bytes after the 4-byte checksum field, read the received checksum, rewind the
cursor when they differ, ask the service port for a protocol with
`checksummed = (recvChecksum == checksum)` and force-close when none is
returned; with a protocol already bound, skip 4 + 1 bytes.  Deliver the
message and, unless `onRecvMessage` returned true, issue the next header
read.  The service list and the protocol's `onRecvMessage` result are passed
as parameters. -/
def parsePacket (c : Conn) (error : Bool) (services : List Service)
    (onRecvResult : Bool) : Conn × List Event :=
  if error = true ∨ c.connectionState = ConnState.CLOSED then
    let r := close c true
    (r.1, (if error then [Event.logError] else []) ++ r.2)
  else if c.receivedFirst = false then
    let c1 := { c with receivedFirst := true }
    match c1.protocol with
    | none =>
      let checksum : Nat := packetChecksum c1
      let recvChecksum := readU32LE c1.msgBuffer c1.msgPosition
      let pos1 := c1.msgPosition + CHECKSUM_LENGTH
      let pos2 := if recvChecksum ≠ checksum then pos1 - CHECKSUM_LENGTH else pos1
      let sel := make_protocol services (recvChecksum == checksum) c1.msgBuffer pos2
      let c2 := { c1 with msgPosition := sel.2 }
      match sel.1 with
      | none =>
        let r := close c2 true
        (r.1, Event.askedProtocol (recvChecksum == checksum) :: r.2)
      | some s =>
        ({ c2 with protocol := some s },
          [Event.askedProtocol (recvChecksum == checksum),
            Event.deliveredOnRecvFirst,
            Event.issuedRead HEADER_LENGTH Completion.header])
    | some _ =>
      ({ c1 with msgPosition := c1.msgPosition + 4 + 1 },
        [Event.deliveredOnRecvFirst,
          Event.issuedRead HEADER_LENGTH Completion.header])
  else
    (c, Event.deliveredOnRecv ::
      (if onRecvResult then [] else [Event.issuedRead HEADER_LENGTH Completion.header]))

/-- `Connection::internalWorker`: with an empty queue, close the socket when
the state is `CLOSED` and return; otherwise run `onSendMessage` on the front
message and hand it to `internalSend`, which issues the async write. -/
def internalWorker (c : Conn) : Conn × List Event :=
  if c.messageQueue.isEmpty then
    if c.connectionState = ConnState.CLOSED then closeSocket c else (c, [])
  else
    (c, [Event.onSendMessage, Event.issuedWrite])

/-- `Connection::onWriteOperation(error)`: pop the written message; on error
clear the queue and force-close; otherwise chain to the next queued message,
or close the socket when the queue is empty and the state is `CLOSED`. -/
def onWriteOperation (c : Conn) (error : Bool) : Conn × List Event :=
  let c1 := { c with messageQueue := c.messageQueue.tail }
  if error = true then
    let r := close { c1 with messageQueue := [] } true
    (r.1, Event.logError :: r.2)
  else if c1.messageQueue.isEmpty = false then
    (c1, [Event.onSendMessage, Event.issuedWrite])
  else if c1.connectionState = ConnState.CLOSED then
    closeSocket c1
  else
    (c1, [])

/-- Result of `Connection::getIP`: the returned value, the value left in the
atomic `ip` field, and whether the remote endpoint was queried. -/
structure GetIPResult where
  ret : Nat
  newIp : Nat
  queried : Bool
deriving DecidableEq, Repr

/-- `Connection::getIP`: when the stored ip is the sentinel 1, query the
remote endpoint (modelled as `none` on resolution error, `some v` for the
byte-swapped address `v`), store 0 or the resolved value; always return the
stored value. -/
def getIP (ip : Nat) (endpoint : Option Nat) : GetIPResult :=
  if ip = 1 then
    match endpoint with
    | none => ⟨0, 0, true⟩
    | some v => ⟨v, v, true⟩
  else
    ⟨ip, ip, false⟩

/-- What `ServicePort::onAccept` did with the freshly accepted connection. -/
inductive AcceptAction where
  | acceptedWithProtocol (s : Service)
  | acceptedPlain
  | closedForce
  | ignored
deriving DecidableEq, Repr

/-- The error argument of `ServicePort::onAccept`. -/
inductive AcceptErr where
  | ok
  | aborted
  | other
deriving DecidableEq, Repr

/-- Observable outcome of one `ServicePort::onAccept` completion. -/
structure AcceptOutcome where
  action : AcceptAction
  acceptPosted : Bool
  pendingStart : Bool
  retryScheduled : Bool
  acceptorClosed : Bool
deriving DecidableEq, Repr

/-- `ServicePort::onAccept(connection, error)`: on success, return at once
when no services are configured; otherwise accept the connection (with the
front service's protocol when it is single-socket) when the resolved IP is
nonzero and the ban policy accepts it, else force-close it; then call
`accept()` again.  A non-aborted error closes the acceptor and schedules a
reopen unless one is already pending. -/
def onAccept (services : List Service) (pendingStart : Bool) (remoteIp : Nat)
    (banAccepts : Bool) : AcceptErr → AcceptOutcome
  | AcceptErr.ok =>
    match services with
    | [] => ⟨AcceptAction.ignored, false, pendingStart, false, false⟩
    | s :: _ =>
      if remoteIp ≠ 0 ∧ banAccepts = true then
        if s.isSingleSocket then
          ⟨AcceptAction.acceptedWithProtocol s, true, pendingStart, false, false⟩
        else
          ⟨AcceptAction.acceptedPlain, true, pendingStart, false, false⟩
      else
        ⟨AcceptAction.closedForce, true, pendingStart, false, false⟩
  | AcceptErr.aborted => ⟨AcceptAction.ignored, false, pendingStart, false, false⟩
  | AcceptErr.other =>
    if pendingStart = false then
      ⟨AcceptAction.ignored, false, true, true, true⟩
    else
      ⟨AcceptAction.ignored, false, pendingStart, false, false⟩

/-- `ServicePort::add_service(new_svc)`: reject when an existing service is
single-socket, otherwise append. -/
def add_service (services : List Service) (svc : Service) : Bool × List Service :=
  if services.any (fun s => s.isSingleSocket) then
    (false, services)
  else
    (true, services ++ [svc])

/-- The service list obtained by a sequence of `add_service` calls starting
from an empty port. -/
def addAll (svcs : List Service) : List Service :=
  svcs.foldl (fun acc s => (add_service acc s).2) []

/-- The hosting shape claimed by the spec: a port holds either no
single-socket service at all, or exactly one service. -/
def portHostingValid (services : List Service) : Bool :=
  !(services.any fun s => s.isSingleSocket) || services.length == 1

/-! ## Helper lemmas -/

/-- Closed form of the state left by `close`. -/
theorem close_fst (c : Conn) (force : Bool) :
    (close c force).1 =
      if c.connectionState = ConnState.CLOSED then { c with ip := 0 }
      else if c.messageQueue.isEmpty || force then
        { c with ip := 0, connectionState := ConnState.CLOSED, socketOpen := false }
      else
        { c with ip := 0, connectionState := ConnState.CLOSED } := by
  unfold close
  dsimp only
  split
  · rfl
  · split <;> rfl

/-- Closed form of the events emitted by `close`. -/
theorem close_events (c : Conn) (force : Bool) :
    (close c force).2 = Event.closeInvoked force ::
      (if c.connectionState = ConnState.CLOSED then []
       else
        (if c.protocol.isSome then [Event.scheduledRelease] else []) ++
          (if c.messageQueue.isEmpty || force then [Event.closedSocket] else [])) := by
  unfold close
  dsimp only
  split
  · simp
  · split <;> simp

/-- Membership in the event list of `close`. -/
theorem mem_close_events (c : Conn) (force : Bool) (ev : Event) :
    ev ∈ (close c force).2 ↔
      (ev = Event.closeInvoked force ∨
        (c.connectionState ≠ ConnState.CLOSED ∧
          ((c.protocol.isSome = true ∧ ev = Event.scheduledRelease) ∨
            ((c.messageQueue.isEmpty || force) = true ∧ ev = Event.closedSocket)))) := by
  rw [close_events]
  by_cases h1 : c.connectionState = ConnState.CLOSED <;>
    by_cases h2 : c.protocol.isSome = true <;>
      by_cases h3 : (c.messageQueue.isEmpty || force) = true <;>
        simp [h1, h2, h3]

/-- The state left by `close` always has `connectionState = CLOSED` when it
was not `CLOSED` before, and keeps `CLOSED` when it was. -/
theorem close_fst_state (c : Conn) (force : Bool) :
    (close c force).1.connectionState =
      (if c.connectionState = ConnState.CLOSED then c.connectionState
       else ConnState.CLOSED) := by
  rw [close_fst]
  by_cases h1 : c.connectionState = ConnState.CLOSED <;>
    by_cases h2 : (c.messageQueue.isEmpty || force) = true <;> simp [h1, h2]

/-- The selection loop of `make_protocol` returns the first service of the
list satisfying the combined test. -/
theorem findService_eq_find (services : List Service) (checksummed : Bool) (pid : Nat) :
    findService services checksummed pid =
      services.find? (fun s => s.protocolID == pid &&
        (s.isChecksummed == false || s.isChecksummed == checksummed)) := by
  induction services with
  | nil => rfl
  | cons s rest ih =>
    simp only [findService, List.find?]
    by_cases h : pid = s.protocolID
    · subst h
      cases hc : s.isChecksummed <;> cases checksummed <;> simp [hc, ih]
    · have h2 : (s.protocolID == pid) = false := by
        simp [Ne.symm h]
      simp [h, h2, ih]

/-! ## Claim theorems -/

/-- Claim C9: `ServicePort::make_protocol` reads one byte from the message as
`protocolID` (advancing the cursor by one) and returns a protocol from the
first service in list order whose `protocolID` equals that byte and whose
`isChecksummed` flag is either false or equal to the `checksummed` parameter;
when no service satisfies both conditions it returns a null reference. -/
theorem C9_make_protocol_first_match (services : List Service) (checksummed : Bool)
    (buf : List Nat) (pos : Nat) :
    make_protocol services checksummed buf pos =
      (services.find? (fun s => s.protocolID == readByte buf pos &&
        (s.isChecksummed == false || s.isChecksummed == checksummed)), pos + 1) := by
  unfold make_protocol
  rw [findService_eq_find]

/-- Claim C6 as stated is false: starting from an empty port, adding a
non-single-socket service and then a single-socket service both succeed, so
the port ends up mixing a single-socket service with another service, and the
second `add_service` call returned true even though it put a single-socket
service together with another service. -/
theorem C6_counterexample :
    add_service [(⟨1, false, false⟩ : Service)] ⟨2, false, true⟩ =
      (true, [⟨1, false, false⟩, ⟨2, false, true⟩]) ∧
    portHostingValid (addAll [(⟨1, false, false⟩ : Service), ⟨2, false, true⟩]) = false := by
  decide

/-- Claim C6 amended: `add_service` returns false and leaves the service list
unchanged exactly when an existing service is single-socket (it does not
examine the new service), and otherwise appends the new service.
Consequently nothing is ever added after a single-socket service: in every
service list reachable by `add_service` calls from an empty port, every
service except possibly the last is non-single-socket.  A single-socket
service can still be appended after non-single-socket ones, so a mixed port
is reachable. -/
theorem C6_add_service_reject (svcs : List Service) :
    (∀ services svc, (services.any fun s => s.isSingleSocket) = true →
      add_service services svc = (false, services)) ∧
    (∀ services svc, (services.any fun s => s.isSingleSocket) = false →
      add_service services svc = (true, services ++ [svc])) ∧
    (∀ s ∈ (addAll svcs).dropLast, s.isSingleSocket = false) := by
  refine ⟨?_, ?_, ?_⟩
  · intro services svc h
    simp [add_service, h]
  · intro services svc h
    simp [add_service, h]
  · have key : ∀ (l init : List Service),
        (∀ s ∈ init.dropLast, s.isSingleSocket = false) →
        ∀ s ∈ (l.foldl (fun acc s => (add_service acc s).2) init).dropLast,
          s.isSingleSocket = false := by
      intro l
      induction l with
      | nil =>
        intro init h
        simpa using h
      | cons a l ih =>
        intro init h
        simp only [List.foldl_cons]
        apply ih
        by_cases hany : (init.any fun s => s.isSingleSocket) = true
        · simpa [add_service, hany] using h
        · have hall : ∀ s ∈ init, s.isSingleSocket = false := by
            intro s hs
            have := List.any_eq_false.mp (Bool.eq_false_iff.mpr hany) s hs
            simpa using this
          intro s hs
          rw [add_service] at hs
          simp only [hany, if_false, Bool.false_eq_true] at hs
          rw [List.dropLast_concat] at hs
          exact hall s hs
    exact key svcs [] (by simp)

/-- Claim C6 witness: a single-socket service already present blocks any
further addition, and in the list reachable by adding a plain service and
then a checksummed plain service every non-final service is
non-single-socket. -/
theorem C6_witness :
    add_service [(⟨2, false, true⟩ : Service)] ⟨1, false, false⟩ =
      (false, [⟨2, false, true⟩]) ∧
    (⟨1, false, false⟩ : Service).isSingleSocket = false := by
  refine ⟨?_, ?_⟩
  · exact (C6_add_service_reject []).1 [⟨2, false, true⟩] ⟨1, false, false⟩ (by decide)
  · exact (C6_add_service_reject [⟨1, false, false⟩, ⟨3, true, false⟩]).2.2
      ⟨1, false, false⟩ (by decide)

/-- Claim C5 as stated is false: on an error-free accept completion with an
empty service list, `ServicePort::onAccept` returns immediately and does not
initiate another `accept()`, so the listener does not stay active in that
case. -/
theorem C5_counterexample :
    onAccept [] false 5 true AcceptErr.ok =
      ⟨AcceptAction.ignored, false, false, false, false⟩ := by
  decide

/-- Claim C5 amended: on an error-free accept completion, `onAccept`
initiates another `accept()` exactly when the service list is non-empty
(with an empty list it returns without re-arming the listener); the
connection is accepted with a pre-bound protocol exactly when the IP is
nonzero, the ban policy accepts it, and the front service is single-socket;
it is accepted without a protocol exactly when the IP is nonzero, the ban
policy accepts it, and the front service is not single-socket; and it is
force-closed exactly when the IP is 0 or the ban policy rejects it. -/
theorem C5_onAccept_success (services : List Service) (pendingStart : Bool)
    (remoteIp : Nat) (ban : Bool) :
    ((onAccept services pendingStart remoteIp ban AcceptErr.ok).acceptPosted
      = !services.isEmpty) ∧
    (services = [] →
      onAccept services pendingStart remoteIp ban AcceptErr.ok =
        ⟨AcceptAction.ignored, false, pendingStart, false, false⟩) ∧
    (∀ s rest, services = s :: rest →
      (((onAccept services pendingStart remoteIp ban AcceptErr.ok).action =
          AcceptAction.acceptedWithProtocol s) ↔
        (remoteIp ≠ 0 ∧ ban = true ∧ s.isSingleSocket = true)) ∧
      (((onAccept services pendingStart remoteIp ban AcceptErr.ok).action =
          AcceptAction.acceptedPlain) ↔
        (remoteIp ≠ 0 ∧ ban = true ∧ s.isSingleSocket = false)) ∧
      (((onAccept services pendingStart remoteIp ban AcceptErr.ok).action =
          AcceptAction.closedForce) ↔
        (remoteIp = 0 ∨ ban = false))) := by
  refine ⟨?_, ?_, ?_⟩
  · cases services with
    | nil => rfl
    | cons s rest =>
      simp only [onAccept, List.isEmpty_cons]
      by_cases h : remoteIp ≠ 0 ∧ ban = true
      · by_cases hs : s.isSingleSocket <;> simp [h, hs]
      · simp [h]
  · intro h
    subst h
    rfl
  · intro s rest h
    subst h
    by_cases h0 : remoteIp = 0
    · simp [onAccept, h0]
    · cases ban with
      | false => simp [onAccept, h0]
      | true =>
        cases hs : s.isSingleSocket with
        | false => simp [onAccept, h0, hs]
        | true => simp [onAccept, h0, hs]

/-- Claim C5 witness: with a single-socket front service, a nonzero IP and an
accepting ban policy, the connection is accepted with the pre-bound protocol,
and another accept is posted. -/
theorem C5_witness :
    (onAccept [(⟨1, false, true⟩ : Service)] false 5 true AcceptErr.ok).acceptPosted
      = true ∧
    (onAccept [(⟨1, false, true⟩ : Service)] false 5 true AcceptErr.ok).action =
      AcceptAction.acceptedWithProtocol ⟨1, false, true⟩ := by
  refine ⟨?_, ?_⟩
  · exact (C5_onAccept_success [⟨1, false, true⟩] false 5 true).1
  · exact ((C5_onAccept_success [⟨1, false, true⟩] false 5 true).2.2
      ⟨1, false, true⟩ [] rfl).1.mpr (by decide)

/-- Claim C10: the remote endpoint is queried exactly when the stored ip is
the sentinel 1; once 0 is stored (after a resolution error, or because
`close` unconditionally stores 0 into `ip` before its CLOSED early return),
every subsequent `getIP` call returns 0 without querying again, so a
resolution failure or a close is permanent. -/
theorem C10_getIP_cached (ip : Nat) (e : Option Nat) :
    ((getIP ip e).queried = true ↔ ip = 1) ∧
    (ip = 0 → getIP ip e = ⟨0, 0, false⟩) ∧
    (getIP 1 none = ⟨0, 0, true⟩) ∧
    (∀ (c : Conn) (force : Bool), (close c force).1.ip = 0) ∧
    (∀ es : List (Option Nat),
      es.foldl (fun i e2 => (getIP i e2).newIp) 0 = 0) := by
  refine ⟨?_, ?_, ?_, ?_, ?_⟩
  · by_cases h : ip = 1
    · subst h
      cases e <;> simp [getIP]
    · simp [getIP, h]
  · intro h
    subst h
    rfl
  · rfl
  · intro c force
    rw [close_fst]
    by_cases h1 : c.connectionState = ConnState.CLOSED <;>
      by_cases h2 : (c.messageQueue.isEmpty || force) = true <;> simp [h1, h2]
  · intro es
    induction es with
    | nil => rfl
    | cons e2 es ih =>
      simpa [getIP] using ih

/-- Claim C10 witness: a stored 0 yields 0 without a query, and a close from
an open state leaves `ip = 0`. -/
theorem C10_witness :
    getIP 0 (some 7) = ⟨0, 0, false⟩ ∧
    (close ⟨ConnState.OPEN, 77, 0, 0, false, none, [], true, [], 0, 0⟩ true).1.ip = 0 := by
  refine ⟨?_, ?_⟩
  · exact (C10_getIP_cached 0 (some 7)).2.1 rfl
  · exact (C10_getIP_cached 0 (some 7)).2.2.2.1 _ true

/-- Branch lemma: `parseHeader` on a successful completion outside `CLOSED`
whose incremented packet count exceeds the limit warns and calls
`close()` without force. -/
theorem parseHeader_rate_exceeded (c : Conn) (now maxPPS maxSize : Nat)
    (hs : c.connectionState ≠ ConnState.CLOSED)
    (hgt : (c.packetsSent + 1) / timePassedOf c.timeConnected now > maxPPS) :
    parseHeader c false now maxPPS maxSize =
      ((close { c with packetsSent := c.packetsSent + 1 } false).1,
        Event.logWarn :: (close { c with packetsSent := c.packetsSent + 1 } false).2) := by
  unfold parseHeader
  rw [if_neg (by simp), if_neg hs]
  dsimp only
  rw [if_pos hgt]

/-- Branch lemma: `parseHeader` on a successful completion outside `CLOSED`
within the packet rate limit; the window may reset, then the length header is
checked. -/
theorem parseHeader_rate_ok (c : Conn) (now maxPPS maxSize : Nat)
    (hs : c.connectionState ≠ ConnState.CLOSED)
    (hle : (c.packetsSent + 1) / timePassedOf c.timeConnected now ≤ maxPPS) :
    parseHeader c false now maxPPS maxSize =
      (if getLengthHeader c.msgBuffer = 0 ∨ getLengthHeader c.msgBuffer > maxSize then
        close (if 2 < timePassedOf c.timeConnected now then
            { c with packetsSent := 0, timeConnected := now }
          else { c with packetsSent := c.packetsSent + 1 }) true
      else
        ({ (if 2 < timePassedOf c.timeConnected now then
              { c with packetsSent := 0, timeConnected := now }
            else { c with packetsSent := c.packetsSent + 1 }) with
            msgLength := getLengthHeader c.msgBuffer + HEADER_LENGTH },
          [Event.issuedRead (getLengthHeader c.msgBuffer) Completion.packet])) := by
  unfold parseHeader
  rw [if_neg (by simp), if_neg hs]
  dsimp only
  rw [if_neg (by omega)]
  by_cases h2 : 2 < timePassedOf c.timeConnected now
  · simp only [if_pos h2]
  · simp only [if_neg h2]

/-- Claim C3: on a successful header-read completion outside `CLOSED`,
`parseHeader` computes `timePassed = max(1, now - timeConnected + 1)` (the
`uint32_t` conversion is the identity while the difference fits),
increments `packetsSent`, and performs a non-force close with a warning
exactly when the incremented `packetsSent / timePassed` (integer division)
exceeds `MAX_PACKETS_PER_SECOND`; only when that check passes does
`timePassed > 2` reset `timeConnected` to `now` and `packetsSent` to 0. -/
theorem C3_rate_limit (c : Conn) (now maxPPS maxSize : Nat)
    (hs : c.connectionState ≠ ConnState.CLOSED) :
    (c.timeConnected ≤ now → now - c.timeConnected + 1 < 2 ^ 32 →
      timePassedOf c.timeConnected now = max 1 (now - c.timeConnected + 1)) ∧
    ((c.packetsSent + 1) / timePassedOf c.timeConnected now > maxPPS →
      (parseHeader c false now maxPPS maxSize).1.connectionState = ConnState.CLOSED ∧
      (parseHeader c false now maxPPS maxSize).1.packetsSent = c.packetsSent + 1 ∧
      (parseHeader c false now maxPPS maxSize).1.timeConnected = c.timeConnected ∧
      Event.logWarn ∈ (parseHeader c false now maxPPS maxSize).2 ∧
      Event.closeInvoked false ∈ (parseHeader c false now maxPPS maxSize).2 ∧
      Event.closeInvoked true ∉ (parseHeader c false now maxPPS maxSize).2) ∧
    ((c.packetsSent + 1) / timePassedOf c.timeConnected now ≤ maxPPS →
      Event.logWarn ∉ (parseHeader c false now maxPPS maxSize).2 ∧
      Event.closeInvoked false ∉ (parseHeader c false now maxPPS maxSize).2 ∧
      (parseHeader c false now maxPPS maxSize).1.timeConnected =
        (if 2 < timePassedOf c.timeConnected now then now else c.timeConnected) ∧
      (parseHeader c false now maxPPS maxSize).1.packetsSent =
        (if 2 < timePassedOf c.timeConnected now then 0 else c.packetsSent + 1)) := by
  refine ⟨?_, ?_, ?_⟩
  · intro h1 h2
    unfold timePassedOf
    congr 1
    omega
  · intro hgt
    rw [parseHeader_rate_exceeded c now maxPPS maxSize hs hgt]
    refine ⟨?_, ?_, ?_, ?_, ?_, ?_⟩
    · rw [close_fst_state]
      simp [hs]
    · rw [close_fst, if_neg hs]
      split <;> rfl
    · rw [close_fst, if_neg hs]
      split <;> rfl
    · simp
    · simp [mem_close_events]
    · simp [mem_close_events]
  · intro hle
    rw [parseHeader_rate_ok c now maxPPS maxSize hs hle]
    by_cases hsz : getLengthHeader c.msgBuffer = 0 ∨ getLengthHeader c.msgBuffer > maxSize
    · rw [if_pos hsz]
      by_cases h2 : 2 < timePassedOf c.timeConnected now
      · simp only [if_pos h2]
        refine ⟨by simp [mem_close_events], by simp [mem_close_events], ?_, ?_⟩
        · rw [close_fst, if_neg hs]
          split <;> rfl
        · rw [close_fst, if_neg hs]
          split <;> rfl
      · simp only [if_neg h2]
        refine ⟨by simp [mem_close_events], by simp [mem_close_events], ?_, ?_⟩
        · rw [close_fst, if_neg hs]
          split <;> rfl
        · rw [close_fst, if_neg hs]
          split <;> rfl
    · rw [if_neg hsz]
      by_cases h2 : 2 < timePassedOf c.timeConnected now
      · simp only [if_pos h2]
        exact ⟨by simp, by simp, by trivial, by trivial⟩
      · simp only [if_neg h2]
        exact ⟨by simp, by simp, by trivial, by trivial⟩

/-- Claim C3 witness: with `MAX_PACKETS_PER_SECOND = 0` and one packet in the
first second, the limit is exceeded: a warning is logged, a non-force close
is invoked and no force close occurs; moreover the `timePassed` formula
evaluates as `max(1, now - timeConnected + 1)`. -/
theorem C3_witness :
    timePassedOf 0 5 = max 1 (5 - 0 + 1) ∧
    Event.logWarn ∈
      (parseHeader ⟨ConnState.OPEN, 9, 0, 0, false, none, [], true, [7, 0], 2, 0⟩
        false 0 0 100).2 ∧
    Event.closeInvoked true ∉
      (parseHeader ⟨ConnState.OPEN, 9, 0, 0, false, none, [], true, [7, 0], 2, 0⟩
        false 0 0 100).2 := by
  refine ⟨?_, ?_, ?_⟩
  · exact (C3_rate_limit ⟨ConnState.OPEN, 9, 0, 0, false, none, [], true, [7, 0], 2, 0⟩
      5 0 100 (by decide)).1 (by decide) (by decide)
  · exact ((C3_rate_limit ⟨ConnState.OPEN, 9, 0, 0, false, none, [], true, [7, 0], 2, 0⟩
      0 0 100 (by decide)).2.1 (by decide)).2.2.2.1
  · exact ((C3_rate_limit ⟨ConnState.OPEN, 9, 0, 0, false, none, [], true, [7, 0], 2, 0⟩
      0 0 100 (by decide)).2.1 (by decide)).2.2.2.2.2

/-- Claim C8 as stated is false: on a successful header-read completion
outside `CLOSED` whose length field is 0, the connection is not force-closed
when the packet-rate check fires first — the rate limiter performs a
non-force close and the length field is never examined. -/
theorem C8_counterexample :
    getLengthHeader ([0, 0] : List Nat) = 0 ∧
    Event.closeInvoked true ∉
      (parseHeader ⟨ConnState.OPEN, 9, 0, 0, false, none, [], true, [0, 0], 2, 0⟩
        false 0 0 100).2 ∧
    Event.closeInvoked false ∈
      (parseHeader ⟨ConnState.OPEN, 9, 0, 0, false, none, [], true, [0, 0], 2, 0⟩
        false 0 0 100).2 := by
  decide

/-- Claim C8 amended: on a successful header-read completion outside `CLOSED`
that passes the packet-rate check, `parseHeader` force-closes exactly when
the little-endian 16-bit length field is 0 or greater than
`INPUTMESSAGE_MAXSIZE`; otherwise it sets the message length to
`size + HEADER_LENGTH` and issues a body read of exactly `size` bytes whose
completion is `parsePacket`. -/
theorem C8_header_size_check (c : Conn) (now maxPPS maxSize : Nat)
    (hs : c.connectionState ≠ ConnState.CLOSED)
    (hle : (c.packetsSent + 1) / timePassedOf c.timeConnected now ≤ maxPPS) :
    (getLengthHeader c.msgBuffer = 0 ∨ getLengthHeader c.msgBuffer > maxSize →
      (parseHeader c false now maxPPS maxSize).1.connectionState = ConnState.CLOSED ∧
      Event.closeInvoked true ∈ (parseHeader c false now maxPPS maxSize).2) ∧
    (getLengthHeader c.msgBuffer ≠ 0 → getLengthHeader c.msgBuffer ≤ maxSize →
      (parseHeader c false now maxPPS maxSize).1.msgLength =
        getLengthHeader c.msgBuffer + HEADER_LENGTH ∧
      (parseHeader c false now maxPPS maxSize).2 =
        [Event.issuedRead (getLengthHeader c.msgBuffer) Completion.packet] ∧
      (parseHeader c false now maxPPS maxSize).1.connectionState = c.connectionState) := by
  rw [parseHeader_rate_ok c now maxPPS maxSize hs hle]
  constructor
  · intro hsz
    rw [if_pos hsz]
    constructor
    · rw [close_fst_state]
      by_cases h2 : 2 < timePassedOf c.timeConnected now <;> simp [h2, hs]
    · by_cases h2 : 2 < timePassedOf c.timeConnected now <;>
        simp [h2, mem_close_events]
  · intro h0 hmax
    rw [if_neg (by omega)]
    by_cases h2 : 2 < timePassedOf c.timeConnected now <;> simp [h2]

/-- Claim C8 witness: a header `[5, 0]` (length 5) within the rate limit
extends the message to 7 bytes and issues a 5-byte body read completing in
`parsePacket`. -/
theorem C8_witness :
    (parseHeader ⟨ConnState.OPEN, 9, 0, 0, false, none, [], true, [5, 0], 2, 0⟩
      false 0 10 100).1.msgLength = 7 ∧
    (parseHeader ⟨ConnState.OPEN, 9, 0, 0, false, none, [], true, [5, 0], 2, 0⟩
      false 0 10 100).2 = [Event.issuedRead 5 Completion.packet] := by
  have h := (C8_header_size_check ⟨ConnState.OPEN, 9, 0, 0, false, none, [], true, [5, 0], 2, 0⟩
    0 10 100 (by decide) (by decide)).2 (by decide) (by decide)
  exact ⟨h.1, h.2.1⟩

/-- Claim C7 as stated is false: with a non-empty outbound queue and a closed
socket, `send` outside `CLOSED` merely appends the message — the queue is not
cleared and the connection is not force-closed, because the socket test only
runs when no write was pending. -/
theorem C7_counterexample :
    send ⟨ConnState.OPEN, 9, 0, 0, false, none, [0], false, [], 0, 0⟩ 1 =
      (⟨ConnState.OPEN, 9, 0, 0, false, none, [0, 1], false, [], 0, 0⟩, []) := by
  decide

/-- Claim C7 amended: `send` returns unchanged in `CLOSED`; otherwise it
appends the message to the outbound queue, posts `internalWorker` exactly
when the queue was empty before the append and the socket is open, and —
when the queue was empty before the append and the socket is closed — clears
the queue and force-closes the connection. -/
theorem C7_send (c : Conn) (m : Nat) :
    (c.connectionState = ConnState.CLOSED → send c m = (c, [])) ∧
    (c.connectionState ≠ ConnState.CLOSED →
      (c.messageQueue = [] → c.socketOpen = true →
        send c m = ({ c with messageQueue := [m] }, [Event.postedInternalWorker])) ∧
      (c.messageQueue = [] → c.socketOpen = false →
        (send c m).1.messageQueue = [] ∧
        (send c m).1.connectionState = ConnState.CLOSED ∧
        Event.closeInvoked true ∈ (send c m).2 ∧
        Event.closedSocket ∈ (send c m).2 ∧
        Event.postedInternalWorker ∉ (send c m).2) ∧
      (c.messageQueue ≠ [] →
        send c m = ({ c with messageQueue := c.messageQueue ++ [m] }, []))) := by
  constructor
  · intro hc
    unfold send
    rw [if_pos hc]
  · intro hs
    refine ⟨?_, ?_, ?_⟩
    · intro hq hsock
      unfold send
      rw [if_neg hs]
      dsimp only
      rw [if_pos (by simp [hq]), if_pos (by simp [hsock])]
      simp [hq]
    · intro hq hsock
      unfold send
      rw [if_neg hs]
      dsimp only
      rw [if_pos (by simp [hq]), if_neg (by simp [hsock])]
      dsimp only
      rw [close_fst]
      refine ⟨?_, ?_, ?_, ?_, ?_⟩
      · rw [if_neg hs, if_pos (by simp)]
      · rw [if_neg hs, if_pos (by simp)]
      · simp [mem_close_events, hs]
      · simp [mem_close_events, hs]
      · simp [mem_close_events]
    · intro hq
      unfold send
      rw [if_neg hs]
      dsimp only
      rw [if_neg (by simp [hq])]

/-- Claim C7 witness: an open connection with an empty queue and open socket
posts `internalWorker`; a second send then only appends. -/
theorem C7_witness :
    send ⟨ConnState.OPEN, 9, 0, 0, false, none, [], true, [], 0, 0⟩ 4 =
      (⟨ConnState.OPEN, 9, 0, 0, false, none, [4], true, [], 0, 0⟩,
        [Event.postedInternalWorker]) ∧
    send ⟨ConnState.OPEN, 9, 0, 0, false, none, [4], true, [], 0, 0⟩ 5 =
      (⟨ConnState.OPEN, 9, 0, 0, false, none, [4, 5], true, [], 0, 0⟩, []) := by
  refine ⟨?_, ?_⟩
  · exact ((C7_send ⟨ConnState.OPEN, 9, 0, 0, false, none, [], true, [], 0, 0⟩ 4).2
      (by decide)).1 rfl rfl
  · exact ((C7_send ⟨ConnState.OPEN, 9, 0, 0, false, none, [4], true, [], 0, 0⟩ 5).2
      (by decide)).2.2 (by decide)

/-- Claim C1: on the first error-free packet of a connection with no protocol
bound, `parsePacket` computes the Adler-32 checksum of the bytes after the
4-byte checksum field (0 when no bytes follow), reads the 32-bit received
checksum, asks the service port for a protocol with
`checksummed = (recvChecksum == computed)`, leaves the cursor one past
`packetPos2` (the cursor is rewound by `CHECKSUM_LENGTH` exactly when the
received checksum differs from the computed one), stores exactly the protocol
the selection loop returns, and force-closes the connection exactly when no
protocol is returned. -/
theorem C1_first_packet (c : Conn) (services : List Service) (skipRet : Bool)
    (hrf : c.receivedFirst = false) (hp : c.protocol = none)
    (hs : c.connectionState ≠ ConnState.CLOSED) :
    Event.askedProtocol (readU32LE c.msgBuffer c.msgPosition == packetChecksum c)
      ∈ (parsePacket c false services skipRet).2 ∧
    (parsePacket c false services skipRet).1.msgPosition = packetPos2 c + 1 ∧
    (parsePacket c false services skipRet).1.protocol =
      findService services (readU32LE c.msgBuffer c.msgPosition == packetChecksum c)
        (readByte c.msgBuffer (packetPos2 c)) ∧
    ((parsePacket c false services skipRet).1.connectionState = ConnState.CLOSED ↔
      findService services (readU32LE c.msgBuffer c.msgPosition == packetChecksum c)
        (readByte c.msgBuffer (packetPos2 c)) = none) ∧
    (findService services (readU32LE c.msgBuffer c.msgPosition == packetChecksum c)
        (readByte c.msgBuffer (packetPos2 c)) = none →
      Event.closeInvoked true ∈ (parsePacket c false services skipRet).2) ∧
    (∀ s, findService services (readU32LE c.msgBuffer c.msgPosition == packetChecksum c)
        (readByte c.msgBuffer (packetPos2 c)) = some s →
      Event.deliveredOnRecvFirst ∈ (parsePacket c false services skipRet).2 ∧
      Event.closeInvoked true ∉ (parsePacket c false services skipRet).2) := by
  unfold parsePacket make_protocol
  rw [if_neg (by simp [hs]), if_pos hrf]
  dsimp only
  rw [hp]
  dsimp only
  rw [show packetChecksum { c with receivedFirst := true, protocol := none }
    = packetChecksum c from rfl]
  by_cases hrc : readU32LE c.msgBuffer c.msgPosition = packetChecksum c
  · have hb : (readU32LE c.msgBuffer c.msgPosition == packetChecksum c) = true :=
      beq_iff_eq.mpr hrc
    have hpos2 : packetPos2 c = c.msgPosition + CHECKSUM_LENGTH := by
      unfold packetPos2
      rw [if_pos hrc]
    rw [if_neg (fun h => h hrc)]
    rw [hb, hpos2]
    rcases hfind : findService services true (readByte c.msgBuffer
        (c.msgPosition + CHECKSUM_LENGTH)) with _ | s
    · dsimp only
      refine ⟨by simp, ?_, ?_, ?_, ?_, ?_⟩
      · rw [close_fst, if_neg hs]
        split <;> rfl
      · rw [close_fst, if_neg hs]
        split <;> simp [hp]
      · rw [close_fst_state]
        simp [hs]
      · intro _
        simp [mem_close_events]
      · intro s hsome
        exact absurd hsome (by simp)
    · dsimp only
      refine ⟨by simp, rfl, rfl, by simp [hs], by simp, ?_⟩
      · intro s2 hsome
        simp
  · have hb : (readU32LE c.msgBuffer c.msgPosition == packetChecksum c) = false :=
      beq_eq_false_iff_ne.mpr hrc
    have hpos2 : packetPos2 c = c.msgPosition := by
      unfold packetPos2
      rw [if_neg hrc]
    rw [if_pos hrc]
    rw [hb, hpos2, Nat.add_sub_cancel]
    rcases hfind : findService services false (readByte c.msgBuffer c.msgPosition) with _ | s
    · dsimp only
      refine ⟨by simp, ?_, ?_, ?_, ?_, ?_⟩
      · rw [close_fst, if_neg hs]
        split <;> rfl
      · rw [close_fst, if_neg hs]
        split <;> simp [hp]
      · rw [close_fst_state]
        simp [hs]
      · intro _
        simp [mem_close_events]
      · intro s hsome
        exact absurd hsome (by simp)
    · dsimp only
      refine ⟨by simp, rfl, rfl, by simp [hs], by simp, ?_⟩
      · intro s2 hsome
        simp

/-- Claim C1 witness: a 5-byte first message `[02 00 02 00 01]` whose leading
word equals the Adler-32 of the byte `[01]` that follows it is matched by the
checksummed service with protocol id 1: the protocol is bound, delivery
happens, and the cursor ends at position 5. -/
theorem C1_witness :
    Event.askedProtocol true ∈
      (parsePacket ⟨ConnState.OPEN, 9, 0, 0, false, none, [], true, [2, 0, 2, 0, 1], 5, 0⟩
        false [⟨1, true, false⟩] false).2 ∧
    (parsePacket ⟨ConnState.OPEN, 9, 0, 0, false, none, [], true, [2, 0, 2, 0, 1], 5, 0⟩
      false [⟨1, true, false⟩] false).1.msgPosition = 5 ∧
    (parsePacket ⟨ConnState.OPEN, 9, 0, 0, false, none, [], true, [2, 0, 2, 0, 1], 5, 0⟩
      false [⟨1, true, false⟩] false).1.protocol = some ⟨1, true, false⟩ := by
  have h := C1_first_packet
    ⟨ConnState.OPEN, 9, 0, 0, false, none, [], true, [2, 0, 2, 0, 1], 5, 0⟩
    [⟨1, true, false⟩] false rfl rfl (by decide)
  refine ⟨?_, ?_, ?_⟩
  · have hb : (readU32LE ([2, 0, 2, 0, 1] : List Nat) 0 ==
        packetChecksum ⟨ConnState.OPEN, 9, 0, 0, false, none, [], true, [2, 0, 2, 0, 1], 5, 0⟩)
        = true := by decide
    exact hb ▸ h.1
  · exact h.2.1.trans (by decide)
  · exact h.2.2.1.trans (by decide)

/-- Claim C2: a 2-byte read completing without error in `IDENTIFYING` falls
back to header parsing — state set to `OPEN` and `parseHeader` invoked on the
same two bytes — exactly when the second byte is 0 or the two bytes fail the
case-insensitive comparison with the first two bytes of `SERVER_NAME + "\n"`;
on a match it enters `READINGS` and reads the remaining bytes when
`SERVER_NAME + "\n"` is longer than 2 bytes, else goes straight to `OPEN`
with a fresh 2-byte header read.  In `READINGS`, a case-insensitive suffix
mismatch force-closes the connection, while a match sets `OPEN` and issues a
fresh 2-byte header read. -/
theorem C2_proxy_identification (c : Conn) (serverNameCfg : List Nat)
    (now maxPPS maxSize : Nat) :
    (c.connectionState = ConnState.IDENTIFYING →
      ((readByte c.msgBuffer 1 = 0 ∨
          strncaseeq 2 c.msgBuffer (serverNameCfg ++ [10]) = false) →
        parseProxyIdentification c false serverNameCfg now maxPPS maxSize =
          parseHeader { c with connectionState := ConnState.OPEN } false now maxPPS maxSize) ∧
      (readByte c.msgBuffer 1 ≠ 0 →
        strncaseeq 2 c.msgBuffer (serverNameCfg ++ [10]) = true →
        (2 < (serverNameCfg ++ [10]).length →
          parseProxyIdentification c false serverNameCfg now maxPPS maxSize =
            ({ c with connectionState := ConnState.READINGS },
              [Event.issuedRead ((serverNameCfg ++ [10]).length - 2) Completion.proxyIdent])) ∧
        ((serverNameCfg ++ [10]).length ≤ 2 →
          parseProxyIdentification c false serverNameCfg now maxPPS maxSize =
            ({ c with connectionState := ConnState.OPEN },
              [Event.issuedRead HEADER_LENGTH Completion.header])))) ∧
    (c.connectionState = ConnState.READINGS →
      (strncaseeq ((serverNameCfg ++ [10]).length - 2) c.msgBuffer
          ((serverNameCfg ++ [10]).drop 2) = true →
        parseProxyIdentification c false serverNameCfg now maxPPS maxSize =
          ({ c with connectionState := ConnState.OPEN },
            [Event.issuedRead HEADER_LENGTH Completion.header])) ∧
      (strncaseeq ((serverNameCfg ++ [10]).length - 2) c.msgBuffer
          ((serverNameCfg ++ [10]).drop 2) = false →
        (parseProxyIdentification c false serverNameCfg now maxPPS maxSize).1.connectionState
          = ConnState.CLOSED ∧
        Event.closeInvoked true ∈
          (parseProxyIdentification c false serverNameCfg now maxPPS maxSize).2)) := by
  constructor
  · intro hid
    constructor
    · intro hcond
      unfold parseProxyIdentification
      rw [if_neg (by simp [hid])]
      dsimp only
      rw [if_pos hid, if_pos hcond]
    · intro hb1 hmatch
      unfold parseProxyIdentification
      rw [if_neg (by simp [hid])]
      dsimp only
      rw [if_pos hid, if_neg (by simp [hb1, hmatch])]
      constructor
      · intro hlen
        rw [if_pos (by omega)]
      · intro hlen
        rw [if_neg (by omega)]
  · intro hred
    constructor
    · intro hmatch
      unfold parseProxyIdentification
      rw [if_neg (by simp [hred])]
      dsimp only
      rw [if_neg (by simp [hred]), if_pos hred, if_pos hmatch]
    · intro hmatch
      unfold parseProxyIdentification
      rw [if_neg (by simp [hred])]
      dsimp only
      rw [if_neg (by simp [hred]), if_pos hred, if_neg (by rw [hmatch]; simp)]
      constructor
      · rw [close_fst_state]
        simp [hred]
      · simp [mem_close_events]

/-- Claim C2 witness: with `SERVER_NAME = "OT"`, the bytes `"ot"` match
case-insensitively and the connection enters `READINGS` with a 1-byte read;
the remaining byte `"\n"` then matches the suffix and the connection goes to
`OPEN` with a fresh 2-byte header read; bytes `[5, 0]` (second byte 0) fall
back to `parseHeader` in state `OPEN`. -/
theorem C2_witness :
    parseProxyIdentification
      ⟨ConnState.IDENTIFYING, 9, 0, 0, false, none, [], true, [111, 116], 0, 0⟩
      false [79, 84] 0 10 100 =
      (⟨ConnState.READINGS, 9, 0, 0, false, none, [], true, [111, 116], 0, 0⟩,
        [Event.issuedRead 1 Completion.proxyIdent]) ∧
    parseProxyIdentification
      ⟨ConnState.READINGS, 9, 0, 0, false, none, [], true, [10, 116], 0, 0⟩
      false [79, 84] 0 10 100 =
      (⟨ConnState.OPEN, 9, 0, 0, false, none, [], true, [10, 116], 0, 0⟩,
        [Event.issuedRead HEADER_LENGTH Completion.header]) ∧
    parseProxyIdentification
      ⟨ConnState.IDENTIFYING, 9, 0, 0, false, none, [], true, [5, 0], 2, 0⟩
      false [79, 84] 0 10 100 =
      parseHeader ⟨ConnState.OPEN, 9, 0, 0, false, none, [], true, [5, 0], 2, 0⟩
        false 0 10 100 := by
  refine ⟨?_, ?_, ?_⟩
  · exact (((C2_proxy_identification
      ⟨ConnState.IDENTIFYING, 9, 0, 0, false, none, [], true, [111, 116], 0, 0⟩
      [79, 84] 0 10 100).1 rfl).2 (by decide) (by decide)).1 (by decide)
  · exact ((C2_proxy_identification
      ⟨ConnState.READINGS, 9, 0, 0, false, none, [], true, [10, 116], 0, 0⟩
      [79, 84] 0 10 100).2 rfl).1 (by decide)
  · exact ((C2_proxy_identification
      ⟨ConnState.IDENTIFYING, 9, 0, 0, false, none, [], true, [5, 0], 2, 0⟩
      [79, 84] 0 10 100).1 rfl).1 (Or.inl (by decide))

/-- Claim C4: the `CLOSED` state is terminal and `close` is idempotent.  Once
the state is `CLOSED`: `close` keeps the state, emits nothing beyond its own
invocation (in particular it does not reschedule `protocol->release` and does
not touch the socket), `send` is a no-op, and the read completions
(`parseHeader`, `parseProxyIdentification`, `parsePacket`) keep the state
`CLOSED` and never deliver a `protocol->onRecv*` call.  A close performed
from a non-`CLOSED` state closes the socket before returning exactly when the
outbound queue is empty or `force` holds; otherwise the socket close is
deferred to `internalWorker` or `onWriteOperation` observing an empty queue
in state `CLOSED`. -/
theorem C4_closed_terminal (c : Conn) (hc : c.connectionState = ConnState.CLOSED) :
    (∀ force, (close c force).1.connectionState = ConnState.CLOSED ∧
      (close c force).2 = [Event.closeInvoked force]) ∧
    (∀ m, send c m = (c, [])) ∧
    (∀ e now maxPPS maxSize,
      (parseHeader c e now maxPPS maxSize).1.connectionState = ConnState.CLOSED ∧
      ∀ ev ∈ (parseHeader c e now maxPPS maxSize).2, isRecvEvent ev = false) ∧
    (∀ e sn now maxPPS maxSize,
      (parseProxyIdentification c e sn now maxPPS maxSize).1.connectionState
        = ConnState.CLOSED ∧
      ∀ ev ∈ (parseProxyIdentification c e sn now maxPPS maxSize).2,
        isRecvEvent ev = false) ∧
    (∀ e services skipRet,
      (parsePacket c e services skipRet).1.connectionState = ConnState.CLOSED ∧
      ∀ ev ∈ (parsePacket c e services skipRet).2, isRecvEvent ev = false) ∧
    (∀ c2 : Conn, c2.connectionState ≠ ConnState.CLOSED → ∀ force,
      (Event.closedSocket ∈ (close c2 force).2 ↔
        (c2.messageQueue.isEmpty = true ∨ force = true))) ∧
    (c.messageQueue = [] → internalWorker c = closeSocket c) ∧
    (∀ m, c.messageQueue = [m] →
      onWriteOperation c false = closeSocket { c with messageQueue := [] }) := by
  refine ⟨?_, ?_, ?_, ?_, ?_, ?_, ?_, ?_⟩
  · intro force
    constructor
    · rw [close_fst_state, if_pos hc, hc]
    · rw [close_events, if_pos hc]
  · intro m
    unfold send
    rw [if_pos hc]
  · intro e now maxPPS maxSize
    cases e with
    | true =>
      constructor
      · unfold parseHeader
        rw [if_pos rfl, close_fst_state, if_pos hc, hc]
      · unfold parseHeader
        rw [if_pos rfl, close_events, if_pos hc]
        intro ev hev
        simp only [List.mem_singleton] at hev
        subst hev
        rfl
    | false =>
      constructor
      · unfold parseHeader
        rw [if_neg (by simp), if_pos hc]
        exact hc
      · unfold parseHeader
        rw [if_neg (by simp), if_pos hc]
        intro ev hev
        simp at hev
  · intro e sn now maxPPS maxSize
    unfold parseProxyIdentification
    rw [if_pos (Or.inr hc)]
    constructor
    · rw [close_fst_state, if_pos hc, hc]
    · rw [close_events, if_pos hc]
      intro ev hev
      simp only [List.mem_singleton] at hev
      subst hev
      rfl
  · intro e services skipRet
    unfold parsePacket
    rw [if_pos (Or.inr hc)]
    dsimp only
    constructor
    · rw [close_fst_state, if_pos hc, hc]
    · rw [close_events, if_pos hc]
      intro ev hev
      cases e with
      | true =>
        simp at hev
        rcases hev with rfl | rfl <;> rfl
      | false =>
        simp at hev
        subst hev
        rfl
  · intro c2 hne force
    rw [mem_close_events]
    simp [hne]
  · intro hq
    unfold internalWorker
    rw [if_pos (by simp [hq]), if_pos hc]
  · intro m hm
    unfold onWriteOperation
    rw [hm]
    dsimp only
    rw [if_neg (by simp), if_neg (by simp), if_pos hc]
    rfl

/-- Claim C4 witness: a concrete `CLOSED` connection with a bound protocol
and empty queue — a second close emits only its own invocation, a send is a
no-op, and `internalWorker` closes the socket; a non-`CLOSED` close with an
empty queue closes the socket even without force. -/
theorem C4_witness :
    (close ⟨ConnState.CLOSED, 0, 0, 0, true, some ⟨1, false, false⟩, [], true, [], 0, 0⟩
      true).2 = [Event.closeInvoked true] ∧
    send ⟨ConnState.CLOSED, 0, 0, 0, true, some ⟨1, false, false⟩, [], true, [], 0, 0⟩ 3 =
      (⟨ConnState.CLOSED, 0, 0, 0, true, some ⟨1, false, false⟩, [], true, [], 0, 0⟩, []) ∧
    internalWorker ⟨ConnState.CLOSED, 0, 0, 0, true, some ⟨1, false, false⟩, [], true, [], 0, 0⟩ =
      closeSocket ⟨ConnState.CLOSED, 0, 0, 0, true, some ⟨1, false, false⟩, [], true, [], 0, 0⟩ ∧
    (Event.closedSocket ∈
      (close ⟨ConnState.OPEN, 9, 0, 0, false, none, [], true, [], 0, 0⟩ false).2 ↔
      (([] : List Nat).isEmpty = true ∨ false = true)) := by
  have h := C4_closed_terminal
    ⟨ConnState.CLOSED, 0, 0, 0, true, some ⟨1, false, false⟩, [], true, [], 0, 0⟩ rfl
  exact ⟨(h.1 true).2, h.2.1 3, h.2.2.2.2.2.2.1 rfl,
    h.2.2.2.2.2.1 ⟨ConnState.OPEN, 9, 0, 0, false, none, [], true, [], 0, 0⟩ (by decide) false⟩

end Canary
